import Mathlib

/-
  Verification of the peekapi-dev/sdk-python ingestion client
  (package `apidash`: `client.py` and `_ssrf.py`).

  The Python code is shallowly embedded: every function below is a direct
  translation of the corresponding Python function, with machine state
  (buffer, flags, disk files, clock, random jitter) passed explicitly.
  Python integers are Nat/Int, Python float time values are Rat, Python
  dicts are ordered association lists, and raising code returns Except.
-/

set_option maxRecDepth 4000

namespace Apidash

/-! ## Python value model

A closed universe of Python values sufficient for the event records the
client handles: strings, ints, bools, None, lists and dicts.  Python
dicts are modelled as ordered association lists (insertion order), which
matches CPython dict semantics for the operations used by the client. -/

inductive PyVal where
  | str (s : String)
  | int (n : Int)
  | bool (b : Bool)
  | none
  | list (l : List PyVal)
  | dict (d : List (String × PyVal))

abbrev EventDict := List (String × PyVal)

/-- Python `d.get(k)` on a dict: value of the first (unique) binding of `k`. -/
def dget (d : EventDict) (k : String) : Option PyVal :=
  (d.find? (fun p => p.1 = k)).map (fun p => p.2)

/-- Python `d[k] = v`: update the binding in place if the key exists
(CPython keeps its position), otherwise append a new binding. -/
def dset (d : EventDict) (k : String) (v : PyVal) : EventDict :=
  if d.any (fun p => p.1 = k) then
    d.map (fun p => if p.1 = k then (k, v) else p)
  else
    d ++ [(k, v)]

/-- Python `d.pop(k, None)`: remove the binding of `k` if present. -/
def derase (d : EventDict) (k : String) : EventDict :=
  d.filter (fun p => p.1 ≠ k)

/-- Python truthiness of a value (`bool(v)`). -/
def truthy : PyVal → Bool
  | .str s => s ≠ ""
  | .int n => n ≠ 0
  | .bool b => b
  | .none => false
  | .list l => ¬ l.isEmpty
  | .dict d => ¬ d.isEmpty

/-! ## Python string primitives

The client uses `str(x)`, slicing `s[:n]`, `s.upper()`, `s.lower()` and
`json.dumps(..., separators=(",", ":"))`.  Slicing is by code point,
which agrees with `String.take`.  The case mappings below embed CPython
`str.upper` and `str.lower` on the ASCII and Latin-1 code points
(including the expanding mapping of U+00DF to "SS"); on code points
outside that range they act as the identity, which is faithful for every
input considered in this development. -/

/-- CPython `str.upper` of one character, restricted to ASCII and
Latin-1 (identity beyond); note U+00DF maps to the two-character "SS". -/
def upperChar (c : Char) : String :=
  if 'a' ≤ c ∧ c ≤ 'z' then String.mk [Char.ofNat (c.toNat - 32)]
  else if c = 'ß' then "SS"
  else if c = 'µ' then "Μ"
  else if c = 'ÿ' then "Ÿ"
  else if ('à' ≤ c ∧ c ≤ 'ö') ∨ ('ø' ≤ c ∧ c ≤ 'þ') then
    String.mk [Char.ofNat (c.toNat - 32)]
  else String.mk [c]

/-- Concatenation of the per-character uppercase images of a character
list. -/
def pyUpperList : List Char → String
  | [] => ""
  | c :: cs => upperChar c ++ pyUpperList cs

/-- CPython `str.upper`, character by character via `upperChar`. -/
def pyUpper (s : String) : String :=
  pyUpperList s.toList

/-- CPython `str.lower` of one character, restricted to ASCII and
Latin-1 (identity beyond). -/
def lowerChar (c : Char) : Char :=
  if 'A' ≤ c ∧ c ≤ 'Z' then Char.ofNat (c.toNat + 32)
  else if ('À' ≤ c ∧ c ≤ 'Ö') ∨ ('Ø' ≤ c ∧ c ≤ 'Þ') then Char.ofNat (c.toNat + 32)
  else c

/-- CPython `str.lower`, character by character. -/
def pyLower (s : String) : String :=
  String.mk (s.toList.map lowerChar)

/-- Splitting of a character list at every occurrence of a separator
character; the result always has one more block than separators, as in
Python `str.split(sep)`. -/
def splitChar (sep : Char) : List Char → List (List Char)
  | [] => [[]]
  | c :: rest =>
    match splitChar sep rest with
    | h :: t => if c = sep then [] :: h :: t else (c :: h) :: t
    | [] => [[c]]

/-- Python `s.split(sep)` for a one-character separator. -/
def pySplit (s : String) (sep : Char) : List String :=
  (splitChar sep s.toList).map String.mk

/-- Python slice `s[:n]`: the first `n` code points. -/
def pyTake (s : String) (n : Nat) : String :=
  String.mk (s.toList.take n)

mutual

/-- Python `repr` of a value (used by `str` on lists and dicts); string
escaping inside `repr` is elided, which is faithful for the simple
values considered here. -/
def pyRepr : PyVal → String
  | .str s => "'" ++ s ++ "'"
  | .int n => toString n
  | .bool b => if b then "True" else "False"
  | .none => "None"
  | .list l => "[" ++ String.intercalate ", " (pyReprList l) ++ "]"
  | .dict d =>
      "\x7b" ++ String.intercalate ", " (pyReprDict d) ++ "\x7d"

def pyReprList : List PyVal → List String
  | [] => []
  | v :: vs => pyRepr v :: pyReprList vs

def pyReprDict : List (String × PyVal) → List String
  | [] => []
  | (k, v) :: ps => ("'" ++ k ++ "': " ++ pyRepr v) :: pyReprDict ps

end

/-- Python `str(x)`. -/
def pyStr : PyVal → String
  | .str s => s
  | v => pyRepr v

/-- Hexadecimal digit character for a value below 16. -/
def hexDigit (n : Nat) : Char :=
  if n < 10 then Char.ofNat (48 + n) else Char.ofNat (87 + (n - 10))

/-- Four-digit lowercase hexadecimal rendering of a value below 2^16. -/
def hex4 (n : Nat) : String :=
  String.mk [hexDigit (n / 4096 % 16), hexDigit (n / 256 % 16),
             hexDigit (n / 16 % 16), hexDigit (n % 16)]

/-- JSON escaping of one character as CPython `json.dumps` does with the
default `ensure_ascii=True`: short escapes for the common controls,
`\uXXXX` for other controls and all non-ASCII code points (surrogate
pairs above U+FFFF), everything else verbatim. -/
def jsonEscapeChar (c : Char) : String :=
  if c = '"' then "\\\""
  else if c = '\\' then "\\\\"
  else if c = '\n' then "\\n"
  else if c = '\t' then "\\t"
  else if c = '\r' then "\\r"
  else if c.toNat = 8 then "\\b"
  else if c.toNat = 12 then "\\f"
  else if c.toNat < 32 then "\\u" ++ hex4 c.toNat
  else if c.toNat < 127 then String.mk [c]
  else if c.toNat < 65536 then "\\u" ++ hex4 c.toNat
  else
    "\\u" ++ hex4 (55296 + (c.toNat - 65536) / 1024) ++
    "\\u" ++ hex4 (56320 + (c.toNat - 65536) % 1024)

/-- JSON string literal as CPython `json.dumps` renders it. -/
def jsonString (s : String) : String :=
  "\"" ++ String.join (s.toList.map jsonEscapeChar) ++ "\""

mutual

/-- CPython `json.dumps(v, separators=(",", ":"))`.  The output is pure
ASCII (`ensure_ascii=True`), so its character count equals the byte
count of its UTF-8 encoding, as used by the per-event size check. -/
def jsonEncode : PyVal → String
  | .str s => jsonString s
  | .int n => toString n
  | .bool b => if b then "true" else "false"
  | .none => "null"
  | .list l => "[" ++ String.intercalate "," (jsonEncodeList l) ++ "]"
  | .dict d =>
      "\x7b" ++ String.intercalate "," (jsonEncodeDict d) ++ "\x7d"

def jsonEncodeList : List PyVal → List String
  | [] => []
  | v :: vs => jsonEncode v :: jsonEncodeList vs

def jsonEncodeDict : List (String × PyVal) → List String
  | [] => []
  | (k, v) :: ps => (jsonString k ++ ":" ++ jsonEncode v) :: jsonEncodeDict ps

end

/-! ## Endpoint validation (`_ssrf.py`)

The module depends on two pieces of the Python standard library, both
embedded here from their CPython sources: `ipaddress` (address text
formats and the `is_private` / `is_loopback` / `is_link_local` network
tables) and the fast-path regular expression compiled in `_ssrf.py`.
`urllib.parse.urlparse` is treated abstractly: `validate_endpoint`
receives the components of the parsed URL as an explicit argument. -/

/-- Character is one of the ten ASCII decimal digits, the exact set
`_DECIMAL_DIGITS` that CPython `ipaddress` accepts in IPv4 octets. -/
def isAsciiDigit (c : Char) : Bool :=
  '0' ≤ c ∧ c ≤ '9'

/-- CPython `IPv4Address._parse_octet`: only ASCII digits, at most three
of them, no leading zero on a multi-digit octet, value at most 255. -/
def parse_octet (s : String) : Option Nat :=
  let cs := s.toList
  if cs.isEmpty then Option.none
  else if ¬ cs.all isAsciiDigit then Option.none
  else if cs.length > 3 then Option.none
  else if cs.length > 1 ∧ cs.headI = '0' then Option.none
  else
    let v := cs.foldl (fun a c => a * 10 + (c.toNat - 48)) 0
    if v > 255 then Option.none else some v

/-- CPython `IPv4Address._ip_int_from_string`: exactly four octets
separated by dots. -/
def parseIPv4 (s : String) : Option Nat :=
  match (pySplit s '.').mapM parse_octet with
  | some [a, b, c, d] => some (((a * 256 + b) * 256 + c) * 256 + d)
  | _ => Option.none

/-- Character is an ASCII hexadecimal digit, the exact set `_HEX_DIGITS`
of CPython `ipaddress`. -/
def isAsciiHexDigit (c : Char) : Bool :=
  ('0' ≤ c ∧ c ≤ '9') ∨ ('a' ≤ c ∧ c ≤ 'f') ∨ ('A' ≤ c ∧ c ≤ 'F')

/-- Numeric value of an ASCII hexadecimal digit. -/
def hexVal (c : Char) : Nat :=
  if c.toNat ≤ 57 then c.toNat - 48
  else if c.toNat ≤ 70 then c.toNat - 55
  else c.toNat - 87

/-- CPython `IPv6Address._parse_hextet`: one to four hexadecimal digits. -/
def parse_hextet (s : String) : Option Nat :=
  let cs := s.toList
  if cs.isEmpty then Option.none
  else if ¬ cs.all isAsciiHexDigit then Option.none
  else if cs.length > 4 then Option.none
  else some (cs.foldl (fun a c => a * 16 + hexVal c) 0)

/-- Lowercase hexadecimal rendering without leading zeros, as Python
formats with `"%x"`; used when an embedded IPv4 tail is rewritten into
two hextets. -/
def hexNoPad (n : Nat) : String :=
  if n = 0 then "0" else String.mk ((Nat.toDigits 16 n).map id)

/-- CPython `IPv6Address._ip_int_from_string` applied to a list of
colon-separated parts whose embedded IPv4 tail (if any) has already been
rewritten: locates at most one empty part as the `::` gap, checks the
boundary conditions, and folds the hextets around the gap. -/
def parseIPv6Parts (parts : List String) : Option Nat :=
  if parts.length > 9 then Option.none
  else
    let innerEmpties := (List.range parts.length).filter
      (fun i => 0 < i ∧ i + 1 < parts.length ∧ parts.getD i "x" = "")
    match innerEmpties with
    | [] =>
        if parts.length ≠ 8 then Option.none
        else if parts.getD 0 "x" = "" then Option.none
        else if parts.getLastD "x" = "" then Option.none
        else
          (parts.mapM parse_hextet).map (fun hs => hs.foldl (fun a h => a * 65536 + h) 0)
    | [i] =>
        let hi0 := i
        let lo0 := parts.length - i - 1
        if parts.getD 0 "x" = "" ∧ hi0 ≠ 1 then Option.none
        else if parts.getLastD "x" = "" ∧ lo0 ≠ 1 then Option.none
        else
          let hi := if parts.getD 0 "x" = "" then hi0 - 1 else hi0
          let lo := if parts.getLastD "x" = "" then lo0 - 1 else lo0
          if hi + lo > 7 then Option.none
          else
            let hiParts := (parts.take hi)
            let loParts := (parts.drop (parts.length - lo))
            match hiParts.mapM parse_hextet, loParts.mapM parse_hextet with
            | some hs, some ls =>
                let top := hs.foldl (fun a h => a * 65536 + h) 0
                let bot := ls.foldl (fun a h => a * 65536 + h) 0
                some (top * 2 ^ (16 * (8 - hi)) + bot)
            | _, _ => Option.none
    | _ => Option.none

/-- CPython `IPv6Address` text parsing: optional nonempty scope id after
a single percent sign, at least two colons, an optional embedded IPv4
tail converted to two hextets, then `parseIPv6Parts`. -/
def parseIPv6 (s : String) : Option Nat :=
  let withScope :=
    match pySplit s '%' with
    | [addr] => some addr
    | [addr, zone] => if zone = "" then Option.none else some addr
    | _ => Option.none
  match withScope with
  | Option.none => Option.none
  | some addr =>
    let parts := pySplit addr ':'
    if parts.length < 3 then Option.none
    else
      let last := parts.getLastD ""
      if last.toList.contains '.' then
        match parseIPv4 last with
        | Option.none => Option.none
        | some v4 =>
            parseIPv6Parts (parts.dropLast ++ [hexNoPad (v4 / 65536), hexNoPad (v4 % 65536)])
      else parseIPv6Parts parts

/-- Result of CPython `ipaddress.ip_address`: IPv4 first, IPv6 second. -/
inductive IPAddr where
  | v4 (n : Nat)
  | v6 (n : Nat)

/-- CPython `ipaddress.ip_address(host)`: try `IPv4Address`, then
`IPv6Address`, else a `ValueError` (None here). -/
def ip_address (s : String) : Option IPAddr :=
  match parseIPv4 s with
  | some n => some (.v4 n)
  | Option.none =>
    match parseIPv6 s with
    | some n => some (.v6 n)
    | Option.none => Option.none

/-- Membership of an address value in a network given as base address
and routing mask length, over `bits`-bit addresses. -/
def inNet (bits : Nat) (n : Nat) (base : Nat) (plen : Nat) : Bool :=
  n / 2 ^ (bits - plen) = base / 2 ^ (bits - plen)

/-- CPython `IPv4Address._constants._private_networks`. -/
def v4PrivateNetworks : List (Nat × Nat) :=
  [(0x00000000, 8), (0x0A000000, 8), (0x7F000000, 8), (0xA9FE0000, 16),
   (0xAC100000, 12), (0xC0000000, 29), (0xC00000AA, 31), (0xC0000200, 24),
   (0xC0A80000, 16), (0xC6120000, 15), (0xC6336400, 24), (0xCB007100, 24),
   (0xF0000000, 4), (0xFFFFFFFF, 32)]

/-- CPython `IPv4Address.is_private` (note: the shared address space
100.64.0.0/10 is deliberately absent from the CPython table). -/
def v4_is_private (n : Nat) : Bool :=
  v4PrivateNetworks.any (fun p => inNet 32 n p.1 p.2)

/-- CPython `IPv4Address.is_loopback`: 127.0.0.0/8. -/
def v4_is_loopback (n : Nat) : Bool :=
  inNet 32 n 0x7F000000 8

/-- CPython `IPv4Address.is_link_local`: 169.254.0.0/16. -/
def v4_is_link_local (n : Nat) : Bool :=
  inNet 32 n 0xA9FE0000 16

/-- CPython `IPv6Address._constants._private_networks`. -/
def v6PrivateNetworks : List (Nat × Nat) :=
  [(1, 128), (0, 128), (0xFFFF * 2 ^ 32, 96), (0x0100 * 2 ^ 112, 64),
   (0x2001 * 2 ^ 112, 23), ((0x2001 * 2 ^ 16 + 0x2) * 2 ^ 96, 48),
   ((0x2001 * 2 ^ 16 + 0x0DB8) * 2 ^ 96, 32), (0x2001 * 2 ^ 112 + 0x10 * 2 ^ 96, 28),
   (0xFC00 * 2 ^ 112, 7), (0xFE80 * 2 ^ 112, 10)]

/-- CPython `IPv6Address.is_private`. -/
def v6_is_private (n : Nat) : Bool :=
  v6PrivateNetworks.any (fun p => inNet 128 n p.1 p.2)

/-- CPython `IPv6Address.is_loopback`: exactly ::1. -/
def v6_is_loopback (n : Nat) : Bool :=
  n = 1

/-- CPython `IPv6Address.is_link_local`: fe80::/10. -/
def v6_is_link_local (n : Nat) : Bool :=
  inNet 128 n (0xFE80 * 2 ^ 112) 10

/-- CPython `IPv6Address.ipv4_mapped`: the low 32 bits when the address
lies in ::ffff:0:0/96. -/
def ipv4_mapped (n : Nat) : Option Nat :=
  if n / 2 ^ 32 = 0xFFFF then some (n % 2 ^ 32) else Option.none

/-- Octet pattern `\d{1,3}` of the fast-path regex (ASCII digits in this
model). -/
def rxD13 (s : String) : Bool :=
  1 ≤ s.length ∧ s.length ≤ 3 ∧ s.toList.all isAsciiDigit

/-- Octet pattern `1[6-9]|2\d|3[01]` of the fast-path regex. -/
def rx16to31 (s : String) : Bool :=
  match s.toList with
  | [a, b] =>
      (a = '1' ∧ '6' ≤ b ∧ b ≤ '9') ∨ (a = '2' ∧ isAsciiDigit b) ∨
      (a = '3' ∧ (b = '0' ∨ b = '1'))
  | _ => false

/-- The `_PRIVATE_IP_RE` regex of `_ssrf.py`: anchored alternation of
10/8, 172.16-31, 192.168 dotted patterns and the literal 0.0.0.0. -/
def private_ip_re_match (host : String) : Bool :=
  if host = "0.0.0.0" then true
  else
    match pySplit host '.' with
    | [a, b, c, d] =>
        (a = "10" ∧ rxD13 b ∧ rxD13 c ∧ rxD13 d) ∨
        (a = "172" ∧ rx16to31 b ∧ rxD13 c ∧ rxD13 d) ∨
        (a = "192" ∧ b = "168" ∧ rxD13 c ∧ rxD13 d)
    | _ => false

/-- Translation of `is_private_ip` from `_ssrf.py`: fast-path regex,
then `ipaddress.ip_address` with the IPv4-mapped unwrap and the
`is_private or is_loopback or is_link_local` checks. -/
def is_private_ip (host : String) : Bool :=
  if private_ip_re_match host then true
  else
    match ip_address host with
    | Option.none => false
    | some (.v4 n) => v4_is_private n ∨ v4_is_loopback n ∨ v4_is_link_local n
    | some (.v6 n) =>
        match ipv4_mapped n with
        | some m => v4_is_private m ∨ v4_is_loopback m ∨ v4_is_link_local m
        | Option.none => v6_is_private n ∨ v6_is_loopback n ∨ v6_is_link_local n

/-- Components of `urllib.parse.urlparse(endpoint)` that
`validate_endpoint` consumes.  The hostname is None when the URL has no
host; urlparse returns it already lowercased, and the code lowercases
once more, so the model applies `pyLower` itself. -/
structure ParsedUrl where
  scheme : String
  hostname : Option String
  username : Option String
  password : Option String

/-- Python truthiness of an optional string (None and the empty string
are falsy). -/
def truthyOptStr : Option String → Bool
  | Option.none => false
  | some s => s ≠ ""

/-- Translation of `validate_endpoint` from `_ssrf.py`, with the
urlparse result passed explicitly. -/
def validate_endpoint (endpoint : String) (p : ParsedUrl) : Except String String :=
  if endpoint = "" then .error "endpoint is required"
  else if p.scheme = "" ∨ ¬ truthyOptStr p.hostname then
    .error ("Invalid endpoint URL: " ++ endpoint)
  else
    let hostname := pyLower ((p.hostname).getD "")
    let is_localhost := hostname = "localhost" ∨ hostname = "127.0.0.1" ∨ hostname = "::1"
    if p.scheme ≠ "https" ∧ ¬ is_localhost then
      .error ("HTTPS required for non-localhost endpoint: " ++ endpoint)
    else if truthyOptStr p.username ∨ truthyOptStr p.password then
      .error "Endpoint URL must not contain credentials"
    else if ¬ is_localhost ∧ is_private_ip hostname then
      .error ("Endpoint resolves to private/reserved IP: " ++ hostname)
    else .ok endpoint

/-! ## Client constants (`client.py`) -/

def MAX_PATH_LENGTH : Nat := 2048
def MAX_METHOD_LENGTH : Nat := 16
def MAX_CONSUMER_ID_LENGTH : Nat := 256
def MAX_CONSECUTIVE_FAILURES : Nat := 5
def BASE_BACKOFF_S : Rat := 1
def RETRYABLE_STATUS_CODES : List Nat := [429, 500, 502, 503, 504]

/-- Regular expression `_CONTROL_CHAR_RE`, the class `[\x00-\x1f\x7f]`,
as a search over the characters of a string. -/
def control_char_search (s : String) : Bool :=
  s.toList.any (fun c => c.toNat ≤ 0x1f ∨ c.toNat = 0x7f)

/-- Validation of the api_key performed by `ApiDashClient.__init__`
(lines 68 to 71): an empty key and a key containing a character matched
by `_CONTROL_CHAR_RE` raise ValueError. -/
def init_api_key_check (key : String) : Except String Unit :=
  if key = "" then .error "api_key is required"
  else if control_char_search key then .error "api_key contains invalid control characters"
  else .ok ()

/-- Configuration after `__init__` applied the defaults.  Only the
fields the embedded operations read are kept. -/
structure Config where
  api_key : String
  batch_size : Nat
  max_buffer_size : Nat
  max_storage_bytes : Nat
  max_event_bytes : Nat

/-- Default configuration values of `client.py`. -/
def defaultConfig : Config :=
  { api_key := "test-key", batch_size := 100, max_buffer_size := 10000,
    max_storage_bytes := 5242880, max_event_bytes := 65536 }

/-- Mutable state of one `ApiDashClient` instance: the buffer and the
flight/failure/backoff triple guarded by the mutex, the shutdown flag,
the wake event of the background thread, and whether `_recovery_path`
is set (its value is always `storage_path + ".recovering"`). -/
structure ClientState where
  buffer : List EventDict
  in_flight : Bool
  consecutive_failures : Nat
  backoff_until : Rat
  is_shutdown : Bool
  wake : Bool
  recovery_path : Bool

/-- State fields as `__init__` sets them before `_load_from_disk`. -/
def initialState : ClientState :=
  { buffer := [], in_flight := false, consecutive_failures := 0,
    backoff_until := 0, is_shutdown := false, wake := false,
    recovery_path := false }

/-! ## Disk model

The spill file and the recovery file are modelled as optional line
lists; a missing file is `Option.none`.  Each line is kept in the shape
the replay loop distinguishes: a JSON array of event records, a single
JSON object, an unparseable line of a given byte length, or a blank
line. -/

inductive DiskLine where
  | batch (events : List EventDict)
  | obj (e : EventDict)
  | junk (bytes : Nat)
  | blank

/-- Byte size contributed by one line, newline included; array and
object lines are sized by their compact JSON encoding, exactly what
`_persist_to_disk` writes. -/
def line_bytes : DiskLine → Nat
  | .batch es => (jsonEncode (.list (es.map PyVal.dict))).length + 1
  | .obj e => (jsonEncode (.dict e)).length + 1
  | .junk n => n + 1
  | .blank => 1

/-- Contents of the storage directory: the spill file at
`storage_path` and the recovery file at `storage_path + ".recovering"`. -/
structure Disk where
  storage : Option (List DiskLine)
  recovering : Option (List DiskLine)

/-- Result of `os.path.getsize` as `_persist_to_disk` uses it: 0 for a
missing file (the OSError branch), the summed line sizes otherwise. -/
def storage_size (o : Option (List DiskLine)) : Nat :=
  (o.getD []).foldl (fun a l => a + line_bytes l) 0

/-- Translation of `ApiDashClient._persist_to_disk`: skip the write if
the file has reached `max_storage_bytes`, otherwise append one line
holding the JSON array of the events (creating the file if missing). -/
def persist_to_disk (cfg : Config) (events : List EventDict) (d : Disk) : Disk :=
  if storage_size d.storage ≥ cfg.max_storage_bytes then d
  else { d with storage := some ((d.storage.getD []) ++ [DiskLine.batch events]) }

/-! ## Producer path (`track` / `_track_inner`) -/

/-- Argument passed to `track`.  A `RequestEvent` is turned into a dict
by `asdict` and a mapping is copied by `dict(event)`; both cases carry
the resulting dict.  `invalid` stands for any argument on which
`dict(event)` raises (None, numbers, strings, malformed iterables). -/
inductive TrackInput where
  | mapping (d : EventDict)
  | invalid

/-- Final section of `_track_inner` (lines 207 to 216): under the lock,
a full buffer only sets the wake event, otherwise the event is appended
and the wake event is set when the buffer has reached `batch_size`. -/
def buffer_append (cfg : Config) (st : ClientState) (e : EventDict) : ClientState :=
  if st.buffer.length ≥ cfg.max_buffer_size then { st with wake := true }
  else
    let buf := st.buffer ++ [e]
    { st with buffer := buf, wake := if buf.length ≥ cfg.batch_size then true else st.wake }

/-- Line 188 of `client.py`: `str(d.get("method", ""))[:16].upper()`. -/
def sanitize_method (v : PyVal) : String :=
  pyUpper (pyTake (pyStr v) MAX_METHOD_LENGTH)

/-- Sanitization block of `_track_inner` (lines 187 to 195): bound the
method, path and consumer_id fields and stamp a missing timestamp with
`now_ts`, the ISO-8601 rendering of the current UTC time. -/
def sanitized (now_ts : String) (d0 : EventDict) : EventDict :=
  let d1 := dset d0 "method" (.str (sanitize_method ((dget d0 "method").getD (.str ""))))
  let d2 := dset d1 "path"
    (.str (pyTake (pyStr ((dget d1 "path").getD (.str ""))) MAX_PATH_LENGTH))
  let d3 :=
    if truthy ((dget d2 "consumer_id").getD .none) then
      dset d2 "consumer_id"
        (.str (pyTake (pyStr ((dget d2 "consumer_id").getD .none)) MAX_CONSUMER_ID_LENGTH))
    else d2
  if truthy ((dget d3 "timestamp").getD .none) then d3
  else dset d3 "timestamp" (.str now_ts)

/-- Translation of `ApiDashClient._track_inner`.  An `Except.error`
models an exception propagating to `track`. -/
def track_inner (cfg : Config) (now_ts : String) (st : ClientState)
    (input : TrackInput) : Except Unit ClientState :=
  if st.is_shutdown then .ok st
  else
    match input with
    | .invalid => .error ()
    | .mapping d0 =>
      let d4 := sanitized now_ts d0
      let raw := jsonEncode (.dict d4)
      if raw.length > cfg.max_event_bytes then
        let d5 := derase d4 "metadata"
        let raw2 := jsonEncode (.dict d5)
        if raw2.length > cfg.max_event_bytes then .ok st
        else .ok (buffer_append cfg st d5)
      else .ok (buffer_append cfg st d4)

/-- Translation of `ApiDashClient.track`: run `_track_inner` and
swallow every exception. -/
def track (cfg : Config) (now_ts : String) (st : ClientState)
    (input : TrackInput) : ClientState :=
  match track_inner cfg now_ts st input with
  | .ok st1 => st1
  | .error _ => st

/-! ## Flush path (`_drain_batch` / `_send` / `_do_flush`) -/

/-- Translation of `ApiDashClient._drain_batch`; `now` is the value of
`time.monotonic()` at the call. -/
def drain_batch (cfg : Config) (now : Rat) (st : ClientState) :
    List EventDict × ClientState :=
  if st.buffer.isEmpty ∨ st.in_flight then ([], st)
  else if now < st.backoff_until then ([], st)
  else
    (st.buffer.take cfg.batch_size,
     { st with buffer := st.buffer.drop cfg.batch_size, in_flight := true })

/-- Outcome of the single HTTP attempt `_send` performs, as delivered
by `urllib`: a completed response with its status, an `HTTPError`
carrying a status and a (decoded) response body, or a `URLError` for a
transport failure (DNS, connect, timeout, TLS, reset). -/
inductive SendOutcome where
  | response (status : Nat)
  | httpError (status : Nat) (body : String)
  | urlError (reason : String)

/-- Classification a `_send` attempt ends in. -/
inductive SendResult where
  | ok
  | retryable (msg : String)
  | nonRetryable (msg : String)

/-- Translation of the classification logic of `ApiDashClient._send`:
2xx completed responses succeed, other completed statuses raise
`_NonRetryableError`, an `HTTPError` raises `_RetryableError` exactly
for the statuses in `RETRYABLE_STATUS_CODES` with a snippet of at most
1024 bytes of the body in the message, and a `URLError` always raises
`_RetryableError`.  One call is one attempt; there is no retry loop. -/
def send_classify (outcome : SendOutcome) : SendResult :=
  match outcome with
  | .response s =>
      if s < 200 ∨ s ≥ 300 then .nonRetryable ("HTTP " ++ toString s) else .ok
  | .httpError s body =>
      let snippet := pyTake body 1024
      if s ∈ RETRYABLE_STATUS_CODES then
        .retryable ("HTTP " ++ toString s ++ ": " ++ snippet)
      else .nonRetryable ("HTTP " ++ toString s ++ ": " ++ snippet)
  | .urlError reason => .retryable ("Network error: " ++ reason)

/-- Translation of `ApiDashClient._do_flush`.  `now` is the value
`time.monotonic()` returns in the failure branch and `u` the value
`random.uniform(0.5, 1.0)` returns; both are explicit inputs.  The
user error callback has no bearing on client state and is omitted. -/
def do_flush (cfg : Config) (now u : Rat) (outcome : SendOutcome)
    (batch : List EventDict) (st : ClientState) (d : Disk) :
    ClientState × Disk :=
  match send_classify outcome with
  | .ok =>
      let st1 := { st with consecutive_failures := 0, backoff_until := 0, in_flight := false }
      if st1.recovery_path then
        ({ st1 with recovery_path := false }, { d with recovering := Option.none })
      else (st1, d)
  | .nonRetryable _ =>
      ({ st with in_flight := false }, persist_to_disk cfg batch d)
  | .retryable _ =>
      let failures := st.consecutive_failures + 1
      if failures ≥ MAX_CONSECUTIVE_FAILURES then
        ({ st with consecutive_failures := 0, in_flight := false },
         persist_to_disk cfg batch d)
      else
        let space := cfg.max_buffer_size - st.buffer.length
        ({ st with
             consecutive_failures := failures,
             buffer := batch.take space ++ st.buffer,
             backoff_until := now + BASE_BACKOFF_S * 2 ^ (failures - 1) * u,
             in_flight := false }, d)

/-! ## Disk replay (`_load_from_disk` / `_cleanup_recovery_file`) -/

/-- Line loop of `_load_from_disk`: blank lines and unparseable lines
are skipped, array lines extend the accumulator, object lines append
one record, and the loop breaks once the accumulator has reached
`max_buffer_size` (checked after every parsed line). -/
def collect_events (cap : Nat) : List DiskLine → List EventDict → List EventDict
  | [], acc => acc
  | l :: rest, acc =>
    match l with
    | .blank => collect_events cap rest acc
    | .junk _ => collect_events cap rest acc
    | .batch es =>
        let acc2 := acc ++ es
        if acc2.length ≥ cap then acc2 else collect_events cap rest acc2
    | .obj e =>
        let acc2 := acc ++ [e]
        if acc2.length ≥ cap then acc2 else collect_events cap rest acc2

/-- Translation of `ApiDashClient._load_from_disk`: the recovery file
is tried first and loaded in place; otherwise the spill file is loaded
and renamed to the recovery path.  In both cases `_recovery_path` is
remembered and the loaded events (truncated to `max_buffer_size`)
extend the buffer. -/
def load_from_disk (cfg : Config) (st : ClientState) (d : Disk) :
    ClientState × Disk :=
  match d.recovering with
  | some ls =>
      let evs := collect_events cfg.max_buffer_size ls []
      ({ st with buffer := st.buffer ++ evs.take cfg.max_buffer_size,
                 recovery_path := true }, d)
  | Option.none =>
    match d.storage with
    | some ls =>
        let evs := collect_events cfg.max_buffer_size ls []
        ({ st with buffer := st.buffer ++ evs.take cfg.max_buffer_size,
                   recovery_path := true },
         { storage := Option.none, recovering := some ls })
    | Option.none => (st, d)

/-- State-relevant portion of `ApiDashClient.__init__` after options
validation: fresh instance state followed by the disk replay. -/
def construct (cfg : Config) (d : Disk) : ClientState × Disk :=
  load_from_disk cfg initialState d

/-! ## Dictionary access lemmas -/

theorem find?_key_update (t : EventDict) (k : String) (v : PyVal)
    (h : t.any (fun p => p.1 = k)) :
    (t.map (fun p => if p.1 = k then (k, v) else p)).find? (fun p => p.1 = k)
      = some (k, v) := by
  induction t with
  | nil => simp at h
  | cons p t ih =>
    by_cases hp : p.1 = k
    · simp [List.find?_cons, hp]
    · rw [List.any_cons, Bool.or_eq_true] at h
      cases h with
      | inl h1 => exact absurd (of_decide_eq_true h1) hp
      | inr h2 => simp [List.find?_cons, hp, ih h2]

theorem find?_key_update_ne (t : EventDict) (k k2 : String) (v : PyVal)
    (hne : k2 ≠ k) :
    (t.map (fun p => if p.1 = k2 then (k2, v) else p)).find? (fun p => p.1 = k)
      = t.find? (fun p => p.1 = k) := by
  induction t with
  | nil => rfl
  | cons p t ih =>
    by_cases hp : p.1 = k2
    · simp [List.find?_cons, hp, hne, ih]
    · simp [List.find?_cons, hp, ih]

theorem dget_dset_self (d : EventDict) (k : String) (v : PyVal) :
    dget (dset d k v) k = some v := by
  unfold dset dget
  split
  · rename_i h
    rw [find?_key_update d k v h]
    rfl
  · rename_i h
    rw [List.find?_append]
    have hnone : d.find? (fun p => p.1 = k) = Option.none := by
      rw [List.find?_eq_none]
      intro x hx hpx
      exact h (List.any_eq_true.2 ⟨x, hx, hpx⟩)
    rw [hnone]
    simp [List.find?]

theorem dget_dset_ne (d : EventDict) (k k2 : String) (v : PyVal)
    (hne : k2 ≠ k) :
    dget (dset d k2 v) k = dget d k := by
  unfold dset dget
  split
  · rw [find?_key_update_ne d k k2 v hne]
  · rw [List.find?_append]
    have : ([(k2, v)] : EventDict).find? (fun p => p.1 = k) = Option.none := by
      simp [List.find?, hne]
    rw [this, Option.or_none]

theorem dget_derase_ne (d : EventDict) (k k2 : String) (hne : k2 ≠ k) :
    dget (derase d k2) k = dget d k := by
  unfold derase dget
  induction d with
  | nil => rfl
  | cons p t ih =>
    rw [List.filter_cons]
    by_cases hp : p.1 = k2
    · have hkeep : (decide (p.1 ≠ k2)) = false := by simp [hp]
      have hpk : (decide (p.1 = k)) = false := by
        simp only [decide_eq_false_iff_not]
        exact fun hc => hne (hp ▸ hc)
      rw [hkeep, if_neg (by simp), List.find?_cons, hpk]
      exact ih
    · have hkeep : (decide (p.1 ≠ k2)) = true := by simp [hp]
      rw [hkeep, if_pos rfl, List.find?_cons, List.find?_cons]
      cases hpk : decide (p.1 = k) with
      | true => rfl
      | false => exact ih

/-! ## Sanitizer lemmas -/

theorem dget_dset_path (d : EventDict) (v : PyVal) :
    dget (dset d "path" v) "method" = dget d "method" :=
  dget_dset_ne d "method" "path" v (by decide)

theorem dget_dset_consumer (d : EventDict) (v : PyVal) :
    dget (dset d "consumer_id" v) "method" = dget d "method" :=
  dget_dset_ne d "method" "consumer_id" v (by decide)

theorem dget_dset_timestamp (d : EventDict) (v : PyVal) :
    dget (dset d "timestamp" v) "method" = dget d "method" :=
  dget_dset_ne d "method" "timestamp" v (by decide)

theorem dget_sanitized_method (ts : String) (d0 : EventDict) :
    dget (sanitized ts d0) "method"
      = some (.str (sanitize_method ((dget d0 "method").getD (.str "")))) := by
  simp only [sanitized]
  split <;> split <;>
    simp only [dget_dset_timestamp, dget_dset_consumer, dget_dset_path, dget_dset_self]

/-! ## Producer path lemmas -/

theorem buffer_append_cases (cfg : Config) (st : ClientState) (e : EventDict) :
    (cfg.max_buffer_size ≤ st.buffer.length ∧ (buffer_append cfg st e).buffer = st.buffer) ∨
    (st.buffer.length < cfg.max_buffer_size ∧
      (buffer_append cfg st e).buffer = st.buffer ++ [e]) := by
  unfold buffer_append
  split
  · rename_i h
    exact Or.inl ⟨h, rfl⟩
  · rename_i h
    exact Or.inr ⟨by omega, rfl⟩

theorem track_buffer_cases (cfg : Config) (ts : String) (st : ClientState)
    (inp : TrackInput) :
    (track cfg ts st inp).buffer = st.buffer ∨
    (st.buffer.length < cfg.max_buffer_size ∧
     ∃ d0 e, inp = TrackInput.mapping d0 ∧
       (track cfg ts st inp).buffer = st.buffer ++ [e] ∧
       dget e "method"
         = some (.str (sanitize_method ((dget d0 "method").getD (.str ""))))) := by
  unfold track track_inner
  cases hsd : st.is_shutdown with
  | true => simp
  | false =>
    cases inp with
    | invalid => simp
    | mapping d0 =>
      simp only [Bool.false_eq_true, if_false]
      by_cases hb : (jsonEncode (PyVal.dict (sanitized ts d0))).length > cfg.max_event_bytes
      · rw [if_pos hb]
        by_cases hb2 : (jsonEncode (PyVal.dict (derase (sanitized ts d0) "metadata"))).length
            > cfg.max_event_bytes
        · rw [if_pos hb2]
          exact Or.inl rfl
        · rw [if_neg hb2]
          rcases buffer_append_cases cfg st (derase (sanitized ts d0) "metadata") with
            ⟨_, h2⟩ | ⟨h1, h2⟩
          · exact Or.inl h2
          · refine Or.inr ⟨h1, d0, derase (sanitized ts d0) "metadata", rfl, h2, ?_⟩
            rw [dget_derase_ne _ _ _ (by decide), dget_sanitized_method]
      · rw [if_neg hb]
        rcases buffer_append_cases cfg st (sanitized ts d0) with ⟨_, h2⟩ | ⟨h1, h2⟩
        · exact Or.inl h2
        · exact Or.inr ⟨h1, d0, sanitized ts d0, rfl, h2, dget_sanitized_method ts d0⟩

/-! ## Claim theorems -/

/-- C1: the claim (with the spec, the docstring of `is_private_ip` and
the repository test `test_cgnat`) requires URLs whose hostname lies in
the CGNAT range 100.64.0.0/10 to be rejected.  The code does not:
100.64.0.1 parses as an IPv4 literal inside 100.64.0.0/10, yet
`is_private_ip` returns false (the CPython `is_private` table excludes
the shared address space) and `validate_endpoint` accepts the URL. -/
theorem cgnat_endpoint_accepted :
    parseIPv4 "100.64.0.1" = some 0x64400001 ∧
    inNet 32 0x64400001 0x64400000 10 = true ∧
    is_private_ip "100.64.0.1" = false ∧
    validate_endpoint "https://100.64.0.1/ingest"
      { scheme := "https", hostname := some "100.64.0.1",
        username := Option.none, password := Option.none }
      = .ok "https://100.64.0.1/ingest" :=
  ⟨rfl, rfl, rfl, rfl⟩

/-- C2: for every input, `track` returns normally (it is total by
construction, every raising path of `_track_inner` being absorbed), the
buffer length stays at most `max_buffer_size`, and a buffer already at
`max_buffer_size` is left exactly as it was. -/
theorem track_no_raise_buffer_bound (cfg : Config) (ts : String)
    (st : ClientState) (inp : TrackInput)
    (h : st.buffer.length ≤ cfg.max_buffer_size) :
    (track cfg ts st inp).buffer.length ≤ cfg.max_buffer_size ∧
    (st.buffer.length = cfg.max_buffer_size →
      (track cfg ts st inp).buffer = st.buffer) := by
  rcases track_buffer_cases cfg ts st inp with h1 | ⟨hlt, _, e, _, h2, _⟩
  · exact ⟨h1 ▸ h, fun _ => h1⟩
  · rw [h2]
    constructor
    · simp only [List.length_append, List.length_cons, List.length_nil]
      omega
    · intro heq
      exact absurd heq (by omega)

/-- Witness for C2: a buffer at capacity 1 is left unchanged by track. -/
theorem track_no_raise_buffer_bound_witness :
    (track { defaultConfig with max_buffer_size := 1 } "T"
      { initialState with buffer := [[]] }
      (TrackInput.mapping [])).buffer.length ≤ 1 ∧
    (({ initialState with buffer := [[]] } : ClientState).buffer.length = 1 →
      (track { defaultConfig with max_buffer_size := 1 } "T"
        { initialState with buffer := [[]] }
        (TrackInput.mapping [])).buffer
        = ({ initialState with buffer := [[]] } : ClientState).buffer) :=
  track_no_raise_buffer_bound _ _ _ _ (by decide)

/-- C5 counterexample: the claim requires rejection of api_keys holding
C1 control characters (U+0080 to U+009F); the regex
`[\x00-\x1f\x7f]` does not match them, so a key containing U+0080 is
accepted by the constructor. -/
theorem api_key_c1_control_accepted :
    init_api_key_check (String.mk ['k', Char.ofNat 0x80]) = .ok () ∧
    (Char.ofNat 0x80).toNat = 0x80 :=
  ⟨rfl, rfl⟩

/-- C5 (amended): the constructor rejects the api_key exactly when it
is empty or contains a C0 control character (U+0000 to U+001F) or DEL
(U+007F); C1 control characters are not rejected, and any key free of
the listed characters passes the key validation. -/
theorem api_key_check_iff (key : String) :
    (∃ msg, init_api_key_check key = .error msg) ↔
    (key = "" ∨ ∃ c ∈ key.toList, c.toNat ≤ 0x1f ∨ c.toNat = 0x7f) := by
  unfold init_api_key_check control_char_search
  constructor
  · intro ⟨msg, hm⟩
    by_cases h0 : key = ""
    · exact Or.inl h0
    · rw [if_neg h0] at hm
      right
      by_cases h1 : key.toList.any (fun c => c.toNat ≤ 0x1f ∨ c.toNat = 0x7f) = true
      · obtain ⟨c, hc, hp⟩ := List.any_eq_true.1 h1
        exact ⟨c, hc, of_decide_eq_true hp⟩
      · rw [if_neg h1] at hm
        exact absurd hm (by simp)
  · intro h
    rcases h with h0 | ⟨c, hc, hcc⟩
    · rw [if_pos h0]
      exact ⟨_, rfl⟩
    · by_cases h0 : key = ""
      · rw [h0] at hc
        simp at hc
      · rw [if_neg h0]
        have hany : key.toList.any (fun c => c.toNat ≤ 0x1f ∨ c.toNat = 0x7f) = true :=
          List.any_eq_true.2 ⟨c, hc, decide_eq_true hcc⟩
        rw [if_pos hany]
        exact ⟨_, rfl⟩

/-- Witness for C5: a key holding the NUL character is rejected. -/
theorem api_key_check_iff_witness :
    ∃ msg, init_api_key_check (String.mk ['k', Char.ofNat 0]) = .error msg :=
  (api_key_check_iff _).2 (Or.inr ⟨Char.ofNat 0, by decide, by decide⟩)

/-- C6: classification of a single send attempt: a completed 2xx
response is ok, every other completed or error status outside
\x7b429, 500, 502, 503, 504\x7d is non-retryable, the five retryable
statuses yield a retryable error whose reason carries the status and at
most 1024 bytes of the response body, and every transport failure is
retryable.  The sender performs exactly one attempt: `send_classify` is
a single total function of one outcome with no retry loop. -/
theorem send_classification (s : Nat) (body r : String) :
    (200 ≤ s → s < 300 → send_classify (.response s) = .ok) ∧
    ((s < 200 ∨ 300 ≤ s) →
      send_classify (.response s) = .nonRetryable ("HTTP " ++ toString s)) ∧
    (s ∈ RETRYABLE_STATUS_CODES →
      send_classify (.httpError s body)
        = .retryable ("HTTP " ++ toString s ++ ": " ++ pyTake body 1024)) ∧
    (s ∉ RETRYABLE_STATUS_CODES →
      send_classify (.httpError s body)
        = .nonRetryable ("HTTP " ++ toString s ++ ": " ++ pyTake body 1024)) ∧
    send_classify (.urlError r) = .retryable ("Network error: " ++ r) := by
  unfold send_classify
  dsimp only
  refine ⟨?_, ?_, ?_, ?_, rfl⟩
  · intro h1 h2
    rw [if_neg (by omega)]
  · intro h
    rw [if_pos (by omega)]
  · intro h
    rw [if_pos h]
  · intro h
    rw [if_neg h]

/-- Witness for C6 at status 503 with a transport error alongside. -/
theorem send_classification_witness :
    send_classify (.httpError 503 "oops")
      = .retryable ("HTTP " ++ toString 503 ++ ": " ++ pyTake "oops" 1024) ∧
    send_classify (.response 204) = .ok :=
  ⟨(send_classification 503 "oops" "x").2.2.1 (by decide),
   (send_classification 204 "" "x").1 (by omega) (by omega)⟩

/-- C10: once the shutdown flag is set, `track` is a silent no-op: the
whole client state (buffer, failure counter, backoff deadline, flight
flag) is returned unchanged, and the disk is never touched because
`track` performs no I/O at all. -/
theorem track_after_shutdown_noop (cfg : Config) (ts : String)
    (st : ClientState) (inp : TrackInput) (h : st.is_shutdown = true) :
    track cfg ts st inp = st := by
  unfold track track_inner
  rw [h]
  simp

/-- Witness for C10 on a concrete shut-down client. -/
theorem track_after_shutdown_noop_witness :
    track defaultConfig "T" { initialState with is_shutdown := true }
      (TrackInput.mapping [("method", PyVal.str "get")])
      = { initialState with is_shutdown := true } :=
  track_after_shutdown_noop _ _ _ _ rfl

/-- Helper: a spill write never touches the recovery file. -/
theorem persist_preserves_recovering (cfg : Config) (events : List EventDict)
    (d : Disk) : (persist_to_disk cfg events d).recovering = d.recovering := by
  unfold persist_to_disk
  split <;> rfl

/-- Helper: an HTTPError outcome never classifies as ok. -/
theorem send_classify_httpError_not_ok (s : Nat) (body : String) :
    send_classify (.httpError s body) ≠ .ok := by
  unfold send_classify
  dsimp only
  split <;> simp

/-- C3 counterexample: batch of one event, buffer meanwhile refilled to
capacity, first retryable failure (HTTP 500), jitter 1/2.  The batch is
clipped to the zero remaining capacity and nothing is written to disk:
the event is silently lost, contrary to the claim that clipped excess
has been spilled. -/
theorem flush_retryable_drops_excess :
    (do_flush { defaultConfig with max_buffer_size := 1 } 0 (1 / 2)
        (.httpError 500 "") [[("path", .str "/b")]]
        { initialState with buffer := [[("path", .str "/a")]], in_flight := true }
        ⟨Option.none, Option.none⟩).1.buffer = [[("path", PyVal.str "/a")]] ∧
    (do_flush { defaultConfig with max_buffer_size := 1 } 0 (1 / 2)
        (.httpError 500 "") [[("path", .str "/b")]]
        { initialState with buffer := [[("path", .str "/a")]], in_flight := true }
        ⟨Option.none, Option.none⟩).2.storage = Option.none ∧
    (do_flush { defaultConfig with max_buffer_size := 1 } 0 (1 / 2)
        (.httpError 500 "") [[("path", .str "/b")]]
        { initialState with buffer := [[("path", .str "/a")]], in_flight := true }
        ⟨Option.none, Option.none⟩).2.recovering = Option.none ∧
    [("path", PyVal.str "/b")] ∉
      (do_flush { defaultConfig with max_buffer_size := 1 } 0 (1 / 2)
        (.httpError 500 "") [[("path", .str "/b")]]
        { initialState with buffer := [[("path", .str "/a")]], in_flight := true }
        ⟨Option.none, Option.none⟩).1.buffer ∧
    ((1 : Rat) / 2 ≥ 1 / 2 ∧ (1 : Rat) / 2 ≤ 1) := by
  refine ⟨rfl, rfl, rfl, ?_, by norm_num⟩
  intro hmem
  have hbuf : (do_flush { defaultConfig with max_buffer_size := 1 } 0 (1 / 2)
      (.httpError 500 "") [[("path", .str "/b")]]
      { initialState with buffer := [[("path", .str "/a")]], in_flight := true }
      ⟨Option.none, Option.none⟩).1.buffer = [[("path", PyVal.str "/a")]] := rfl
  rw [hbuf] at hmem
  simp at hmem

/-- C3 (amended): on a retryable failure that has not yet reached the
failure cap, the batch is prepended clipped to the remaining buffer
capacity with any clipped excess silently discarded (the disk is not
touched), the failure counter is incremented, `backoff_until` becomes
`now + BASE_BACKOFF_S * 2 ^ (failures - 1) * u` which for jitter `u`
between 1/2 and 1 lies in the corresponding band, and `in_flight` is
cleared. -/
theorem flush_retryable_requeue (cfg : Config) (now u : Rat)
    (outcome : SendOutcome) (batch : List EventDict) (st : ClientState)
    (d : Disk) (hr : ∃ m, send_classify outcome = .retryable m)
    (hf : st.consecutive_failures + 1 < MAX_CONSECUTIVE_FAILURES)
    (hu1 : 1 / 2 ≤ u) (hu2 : u ≤ 1) :
    (do_flush cfg now u outcome batch st d).1.buffer
      = batch.take (cfg.max_buffer_size - st.buffer.length) ++ st.buffer ∧
    (do_flush cfg now u outcome batch st d).2 = d ∧
    (do_flush cfg now u outcome batch st d).1.consecutive_failures
      = st.consecutive_failures + 1 ∧
    (do_flush cfg now u outcome batch st d).1.in_flight = false ∧
    (do_flush cfg now u outcome batch st d).1.backoff_until
      = now + BASE_BACKOFF_S * 2 ^ st.consecutive_failures * u ∧
    now + BASE_BACKOFF_S * 2 ^ st.consecutive_failures * (1 / 2)
      ≤ (do_flush cfg now u outcome batch st d).1.backoff_until ∧
    (do_flush cfg now u outcome batch st d).1.backoff_until
      ≤ now + BASE_BACKOFF_S * 2 ^ st.consecutive_failures * 1 := by
  obtain ⟨m, hm⟩ := hr
  unfold do_flush
  rw [hm]
  dsimp only
  rw [if_neg (by omega)]
  have hexp : st.consecutive_failures + 1 - 1 = st.consecutive_failures := by omega
  have hpos : (0 : Rat) ≤ BASE_BACKOFF_S * 2 ^ st.consecutive_failures := by
    unfold BASE_BACKOFF_S
    positivity
  refine ⟨rfl, rfl, rfl, rfl, by rw [hexp], ?_, ?_⟩
  · rw [hexp]
    exact add_le_add_left (mul_le_mul_of_nonneg_left hu1 hpos) now
  · rw [hexp]
    exact add_le_add_left (mul_le_mul_of_nonneg_left hu2 hpos) now

/-- Witness for C3 on a concrete first failure with room to requeue. -/
theorem flush_retryable_requeue_witness :
    (do_flush defaultConfig 0 (1 / 2) (.urlError "timeout") [[]]
      { initialState with in_flight := true } ⟨Option.none, Option.none⟩).1.buffer
      = ([[]] : List EventDict).take (defaultConfig.max_buffer_size - 0) ++ [] ∧
    (do_flush defaultConfig 0 (1 / 2) (.urlError "timeout") [[]]
      { initialState with in_flight := true }
      ⟨Option.none, Option.none⟩).2 = ⟨Option.none, Option.none⟩ ∧
    (do_flush defaultConfig 0 (1 / 2) (.urlError "timeout") [[]]
      { initialState with in_flight := true }
      ⟨Option.none, Option.none⟩).1.consecutive_failures = 1 :=
  ⟨((flush_retryable_requeue defaultConfig 0 (1 / 2) (.urlError "timeout") [[]]
      { initialState with in_flight := true } ⟨Option.none, Option.none⟩
      ⟨_, rfl⟩ (by decide) (by norm_num) (by norm_num)).1),
   ((flush_retryable_requeue defaultConfig 0 (1 / 2) (.urlError "timeout") [[]]
      { initialState with in_flight := true } ⟨Option.none, Option.none⟩
      ⟨_, rfl⟩ (by decide) (by norm_num) (by norm_num)).2.1),
   ((flush_retryable_requeue defaultConfig 0 (1 / 2) (.urlError "timeout") [[]]
      { initialState with in_flight := true } ⟨Option.none, Option.none⟩
      ⟨_, rfl⟩ (by decide) (by norm_num) (by norm_num)).2.2.1)⟩

/-- C7 counterexample: fifth consecutive retryable failure with the
spill file already at or above `max_storage_bytes`: the counter resets
and the flight flag clears, but the batch is dropped, not written to
disk, contrary to the claim. -/
theorem failure_cap_storage_full :
    (do_flush { defaultConfig with max_storage_bytes := 5 } 0 1
        (.httpError 500 "") [[("path", .str "/x")]]
        { initialState with consecutive_failures := 4, in_flight := true }
        ⟨some [DiskLine.junk 9], Option.none⟩).2.storage = some [DiskLine.junk 9] ∧
    (do_flush { defaultConfig with max_storage_bytes := 5 } 0 1
        (.httpError 500 "") [[("path", .str "/x")]]
        { initialState with consecutive_failures := 4, in_flight := true }
        ⟨some [DiskLine.junk 9], Option.none⟩).1.consecutive_failures = 0 ∧
    (do_flush { defaultConfig with max_storage_bytes := 5 } 0 1
        (.httpError 500 "") [[("path", .str "/x")]]
        { initialState with consecutive_failures := 4, in_flight := true }
        ⟨some [DiskLine.junk 9], Option.none⟩).1.in_flight = false ∧
    (do_flush { defaultConfig with max_storage_bytes := 5 } 0 1
        (.httpError 500 "") [[("path", .str "/x")]]
        { initialState with consecutive_failures := 4, in_flight := true }
        ⟨some [DiskLine.junk 9], Option.none⟩).1.buffer = [] :=
  ⟨rfl, rfl, rfl, rfl⟩

/-- C7 (amended): on the MAX_FAILURES-th consecutive retryable failure
the counter resets to 0 and `in_flight` clears unconditionally, and the
batch is appended to the spill file provided the file is still below
`max_storage_bytes`; at or above that bound the write is skipped and
the batch is dropped. -/
theorem failure_cap_spills (cfg : Config) (now u : Rat)
    (outcome : SendOutcome) (batch : List EventDict) (st : ClientState)
    (d : Disk) (hr : ∃ m, send_classify outcome = .retryable m)
    (hf : MAX_CONSECUTIVE_FAILURES ≤ st.consecutive_failures + 1) :
    (do_flush cfg now u outcome batch st d).1.consecutive_failures = 0 ∧
    (do_flush cfg now u outcome batch st d).1.in_flight = false ∧
    (storage_size d.storage < cfg.max_storage_bytes →
      (do_flush cfg now u outcome batch st d).2
        = { d with storage := some ((d.storage.getD []) ++ [DiskLine.batch batch]) }) ∧
    (cfg.max_storage_bytes ≤ storage_size d.storage →
      (do_flush cfg now u outcome batch st d).2 = d) := by
  obtain ⟨m, hm⟩ := hr
  unfold do_flush
  rw [hm]
  dsimp only
  rw [if_pos (by omega)]
  refine ⟨rfl, rfl, ?_, ?_⟩
  · intro h
    unfold persist_to_disk
    rw [if_neg (by omega)]
  · intro h
    unfold persist_to_disk
    rw [if_pos h]

/-- Witness for C7 on a concrete fifth failure with an empty disk. -/
theorem failure_cap_spills_witness :
    (do_flush defaultConfig 0 1 (.urlError "reset") [[]]
      { initialState with consecutive_failures := 4, in_flight := true }
      ⟨Option.none, Option.none⟩).1.consecutive_failures = 0 ∧
    (do_flush defaultConfig 0 1 (.urlError "reset") [[]]
      { initialState with consecutive_failures := 4, in_flight := true }
      ⟨Option.none, Option.none⟩).2
      = { storage := some [DiskLine.batch [[]]], recovering := Option.none } :=
  ⟨(failure_cap_spills defaultConfig 0 1 (.urlError "reset") [[]]
      { initialState with consecutive_failures := 4, in_flight := true }
      ⟨Option.none, Option.none⟩ ⟨_, rfl⟩ (by decide)).1,
   (failure_cap_spills defaultConfig 0 1 (.urlError "reset") [[]]
      { initialState with consecutive_failures := 4, in_flight := true }
      ⟨Option.none, Option.none⟩ ⟨_, rfl⟩ (by decide)).2.2.1 (by decide)⟩

/-- C4 counterexample: an event whose method is sixteen times the
character U+00DF is accepted by track, and the buffered method field
(the Python uppercase of the 16-character truncation) has 32
characters, exceeding the claimed 16-character bound. -/
theorem method_field_exceeds_16 :
    ((track defaultConfig "TS" initialState
        (TrackInput.mapping
          [("method", .str (String.mk (List.replicate 16 'ß'))), ("path", .str "/")])).buffer.map
      (fun e => (dget e "method").map (fun v => (pyStr v).length)))
      = [some 32] ∧ MAX_METHOD_LENGTH < 32 :=
  ⟨rfl, by decide⟩

/-- C4 (amended): every event accepted by track carries a method field
equal to the input method coerced to a string, truncated to 16
characters and then uppercased; whenever each character of that
truncation has a single-character uppercase image (in particular for
ASCII input), the stored method has at most 16 characters. -/
theorem method_field_shape :
    (∀ cfg ts st d0,
      (track cfg ts st (TrackInput.mapping d0)).buffer = st.buffer ∨
      ∃ e, (track cfg ts st (TrackInput.mapping d0)).buffer = st.buffer ++ [e] ∧
        dget e "method"
          = some (.str (sanitize_method ((dget d0 "method").getD (.str ""))))) ∧
    (∀ v : PyVal,
      ((pyTake (pyStr v) MAX_METHOD_LENGTH).toList.all
        (fun c => (upperChar c).length = 1)) = true →
      (sanitize_method v).length ≤ MAX_METHOD_LENGTH) := by
  constructor
  · intro cfg ts st d0
    rcases track_buffer_cases cfg ts st (.mapping d0) with h | ⟨_, d0x, e, hinj, h2, h3⟩
    · exact Or.inl h
    · have hd : d0 = d0x := by
        injection hinj
      subst hd
      exact Or.inr ⟨e, h2, h3⟩
  · intro v hall
    unfold sanitize_method pyUpper
    have hlen : ∀ cs : List Char,
        (cs.all (fun c => (upperChar c).length = 1)) = true →
        (pyUpperList cs).length = cs.length := by
      intro cs hcs
      induction cs with
      | nil => rfl
      | cons c t ih =>
        simp only [List.all_cons, Bool.and_eq_true] at hcs
        show (upperChar c ++ pyUpperList t).length = t.length + 1
        rw [String.length_append, ih hcs.2, of_decide_eq_true hcs.1]
        omega
    rw [hlen _ hall]
    show (pyTake (pyStr v) MAX_METHOD_LENGTH).toList.length ≤ MAX_METHOD_LENGTH
    unfold pyTake
    show ((pyStr v).toList.take MAX_METHOD_LENGTH).length ≤ MAX_METHOD_LENGTH
    rw [List.length_take]
    exact Nat.min_le_left _ _

/-- Witness for C4: an ASCII method is bounded by 16 characters. -/
theorem method_field_shape_witness :
    (sanitize_method (.str "get")).length ≤ MAX_METHOD_LENGTH :=
  method_field_shape.2 (.str "get") (by decide)

/-- C8: drain_batch returns the empty batch and an unchanged state when
the buffer is empty, a batch is in flight, or the clock is before the
backoff deadline; otherwise it removes exactly the first
min(batch_size, length) events, marks the flight flag, leaves the
failure counter and backoff deadline alone, and the batch followed by
the remaining buffer is the original buffer. -/
theorem drain_batch_spec (cfg : Config) (now : Rat) (st : ClientState) :
    ((st.buffer = [] ∨ st.in_flight = true ∨ now < st.backoff_until) →
      drain_batch cfg now st = ([], st)) ∧
    (st.buffer ≠ [] → st.in_flight = false → st.backoff_until ≤ now →
      (drain_batch cfg now st).1.length = min cfg.batch_size st.buffer.length ∧
      (drain_batch cfg now st).1 ++ (drain_batch cfg now st).2.buffer = st.buffer ∧
      (drain_batch cfg now st).2.in_flight = true ∧
      (drain_batch cfg now st).2.consecutive_failures = st.consecutive_failures ∧
      (drain_batch cfg now st).2.backoff_until = st.backoff_until) := by
  unfold drain_batch
  constructor
  · intro h
    rcases h with h | h | h
    · rw [if_pos (Or.inl (by simp [h]))]
    · rw [if_pos (Or.inr h)]
    · by_cases h1 : st.buffer.isEmpty = true ∨ st.in_flight = true
      · rw [if_pos h1]
      · rw [if_neg h1, if_pos h]
  · intro h1 h2 h3
    have hA : ¬ (st.buffer.isEmpty = true ∨ st.in_flight = true) := by
      simp [List.isEmpty_iff, h1, h2]
    have hB : ¬ now < st.backoff_until := not_lt.2 h3
    rw [if_neg hA, if_neg hB]
    exact ⟨List.length_take .., List.take_append_drop .., rfl, rfl, rfl⟩

/-- Witness for C8 on a two-event buffer with batch size 1. -/
theorem drain_batch_spec_witness :
    (drain_batch { defaultConfig with batch_size := 1 } 0
      { initialState with buffer := [[], [("a", PyVal.int 1)]] }).1.length
      = min 1 2 ∧
    (drain_batch { defaultConfig with batch_size := 1 } 0
      { initialState with buffer := [[], [("a", PyVal.int 1)]] }).1 ++
      (drain_batch { defaultConfig with batch_size := 1 } 0
        { initialState with buffer := [[], [("a", PyVal.int 1)]] }).2.buffer
      = [[], [("a", PyVal.int 1)]] ∧
    (drain_batch { defaultConfig with batch_size := 1 } 0
      { initialState with buffer := [[], [("a", PyVal.int 1)]] }).2.in_flight = true :=
  ⟨((drain_batch_spec _ _ _).2 (by simp) rfl (by norm_num [initialState])).1,
   ((drain_batch_spec _ _ _).2 (by simp) rfl (by norm_num [initialState])).2.1,
   ((drain_batch_spec _ _ _).2 (by simp) rfl (by norm_num [initialState])).2.2.1⟩

/-- C9: replay idempotence of the rename protocol and deferred deletion
of the recovery file.  Constructing over a spill file moves it to the
recovery path and loads it; constructing again over the resulting disk
loads the identical buffer and leaves the disk untouched, so repeated
crashes without an acknowledged send never duplicate events.  A failed
send (HTTPError or transport error) never deletes the recovery file; a
successful 2xx send deletes it. -/
theorem replay_idempotent :
    (∀ cfg : Config, ∀ ls : List DiskLine,
      (construct cfg ⟨some ls, Option.none⟩).2
        = ⟨Option.none, some ls⟩ ∧
      (construct cfg ⟨some ls, Option.none⟩).1.recovery_path = true ∧
      (construct cfg ((construct cfg ⟨some ls, Option.none⟩).2)).1.buffer
        = (construct cfg ⟨some ls, Option.none⟩).1.buffer ∧
      (construct cfg ((construct cfg ⟨some ls, Option.none⟩).2)).2
        = (construct cfg ⟨some ls, Option.none⟩).2) ∧
    (∀ (cfg : Config) (now u : Rat) (s : Nat) (body : String)
        (batch : List EventDict) (st : ClientState) (d : Disk),
      (do_flush cfg now u (.httpError s body) batch st d).2.recovering
        = d.recovering) ∧
    (∀ (cfg : Config) (now u : Rat) (r : String)
        (batch : List EventDict) (st : ClientState) (d : Disk),
      (do_flush cfg now u (.urlError r) batch st d).2.recovering
        = d.recovering) ∧
    (∀ (cfg : Config) (now u : Rat) (batch : List EventDict)
        (st : ClientState) (d : Disk),
      (do_flush cfg now u (.response 200) batch
        { st with recovery_path := true } d).2.recovering = Option.none) := by
  refine ⟨fun cfg ls => ⟨rfl, rfl, rfl, rfl⟩, ?_, ?_,
    fun cfg now u batch st d => rfl⟩
  · intro cfg now u s body batch st d
    unfold do_flush
    split
    · rename_i heq
      exact absurd heq (send_classify_httpError_not_ok s body)
    · exact persist_preserves_recovering ..
    · dsimp only
      split
      · exact persist_preserves_recovering ..
      · rfl
  · intro cfg now u r batch st d
    unfold do_flush
    rw [show send_classify (.urlError r)
        = .retryable ("Network error: " ++ r) from rfl]
    dsimp only
    split
    · exact persist_preserves_recovering ..
    · rfl

end Apidash

/-! ## Model validation

The following closed evaluations check the embedding against the
concrete vectors exercised by the test suite of the repository
(`tests/test_ssrf.py`, `tests/test_client.py`) and against the
documented behavior of CPython `ipaddress`; the CGNAT vector, which the
code fails, is covered by the C1 theorem above. -/

open Apidash

theorem model_check_01 : Apidash.is_private_ip "10.0.0.1" = true := by decide
theorem model_check_02 : Apidash.is_private_ip "172.16.0.1" = true := by decide
theorem model_check_03 : Apidash.is_private_ip "192.168.1.1" = true := by decide
theorem model_check_04 : Apidash.is_private_ip "100.64.0.1" = false := by decide
theorem model_check_05 : Apidash.is_private_ip "127.0.0.1" = true := by decide
theorem model_check_06 : Apidash.is_private_ip "::1" = true := by decide
theorem model_check_07 : Apidash.is_private_ip "::ffff:10.0.0.1" = true := by decide
theorem model_check_08 : Apidash.is_private_ip "::ffff:8.8.8.8" = false := by decide
theorem model_check_09 : Apidash.is_private_ip "8.8.8.8" = false := by decide
theorem model_check_10 : Apidash.is_private_ip "1.1.1.1" = false := by decide
theorem model_check_11 : Apidash.is_private_ip "example.com" = false := by decide
theorem model_check_12 : Apidash.is_private_ip "0.0.0.0" = true := by decide
theorem model_check_13 : Apidash.is_private_ip "fe80::1" = true := by decide
theorem model_check_14 : Apidash.is_private_ip "fc00::5" = true := by decide
theorem model_check_15 : Apidash.is_private_ip "fd12:3456::1" = true := by decide
theorem model_check_16 : Apidash.is_private_ip "2606:4700::1111" = false := by decide
theorem model_check_17 : Apidash.is_private_ip "169.254.3.4" = true := by decide
theorem model_check_18 : Apidash.parseIPv6 "2001:db8::1" = some 0x20010db8000000000000000000000001 := by decide
theorem model_check_19 : Apidash.parseIPv4 "010.0.0.1" = Option.none := by decide
theorem model_check_20 : Apidash.parseIPv4 "256.0.0.1" = Option.none := by decide
theorem model_check_21 : Apidash.parseIPv6 "1:2:3:4:5:6:7:8" = some 0x00010002000300040005000600070008 := by decide
theorem model_check_22 : Apidash.parseIPv6 "::" = some 0 := by decide
theorem model_check_23 : Apidash.parseIPv6 ":::" = Option.none := by decide
theorem model_check_24 : Apidash.parseIPv6 "1::2::3" = Option.none := by decide
theorem model_check_25 : Apidash.parseIPv6 "fe80::1%eth0" = some 0xFE800000000000000000000000000001 := by decide
theorem model_check_26 : Apidash.parseIPv6 "fe80::1%" = Option.none := by decide
theorem model_check_27 : Apidash.parseIPv6 "::ffff:192.168.0.1" = some (0xFFFF * 2^32 + 0xC0A80001) := by decide

theorem model_check_28 :
    (Apidash.track Apidash.defaultConfig "TS" Apidash.initialState
      (.mapping [("method", .str "get"), ("path", .str "/api"), ("status_code", .int 200)])).buffer
    = [[("method", PyVal.str "GET"), ("path", PyVal.str "/api"), ("status_code", PyVal.int 200),
        ("timestamp", PyVal.str "TS")]] := rfl

theorem model_check_29 :
    (Apidash.dget
      (((Apidash.track Apidash.defaultConfig "TS" Apidash.initialState
        (.mapping [("method", .str (String.mk (List.replicate 16 'ß'))), ("path", .str "/")])).buffer).getD 0 [])
      "method").map (fun v => Apidash.pyStr v |>.length) = some 32 := rfl

theorem model_check_30 :
    (Apidash.track { Apidash.defaultConfig with max_buffer_size := 2 } "TS"
      { Apidash.initialState with buffer := [[], []] }
      (.mapping [("method", .str "get")])).buffer = [[], []] := rfl

theorem model_check_31 :
    Apidash.collect_events 3 [.blank, .junk 5, .batch [[("a", .int 1)], [("b", .int 2)]], .obj [("c", .int 3)], .batch [[("d", .int 4)]]] []
    = [[("a", PyVal.int 1)], [("b", PyVal.int 2)], [("c", PyVal.int 3)]] := rfl
